import Mathlib

/-!
Verification of the release-reconciliation core of `action-gh-release`
(`src/github.ts`).  The effectful TypeScript functions `release` and `upload`
are shallowly embedded as pure Lean functions: every network method of the
`Releaser` interface (and of the upload client) is an oracle — a pure function
from the request to a response — and the embedded functions return, next to
their `Except` result, the list of service calls they issued, in order.
-/

namespace GhRelease

/-- An asset reference as stored on a `Release` (`assets: Array<{id; name}>`). -/
structure AssetRef where
  id : Nat
  name : String
deriving DecidableEq

/-- The `Release` record of `src/github.ts` (nullable fields become `Option`). -/
structure Release where
  id : Nat
  upload_url : String
  html_url : String
  tag_name : String
  name : Option String
  body : Option String
  target_commitish : String
  draft : Bool
  prerelease : Bool
  assets : List AssetRef
deriving DecidableEq

/-- The slice of `Config` (from `util.ts`, consumed by `src/github.ts`).
Optional / tri-state inputs become `Option`; TypeScript `undefined` is `none`. -/
structure Config where
  github_token : String
  github_ref : String
  github_sha : String
  github_repository : String
  input_name : Option String
  input_tag_name : Option String
  workflow_body : Option String
  input_draft : Option Bool
  input_prerelease : Option Bool
  input_target_commitish : Option String
  input_discussion_category_name : Option String
  input_generate_release_notes : Option Bool
  input_append_body : Option Bool
  input_update_tag : Option Bool
  input_overwrite_files : Option Bool
deriving DecidableEq

/-- TypeScript `a || b` for `a : string | undefined`: `a` unless it is
`undefined` or the empty string (both falsy). -/
def tsOrStr (a : Option String) (b : String) : String :=
  match a with
  | some s => if s = "" then b else s
  | none => b

/-- TypeScript `a || b` on two plain strings (`""` is falsy). -/
def strOr (a b : String) : String :=
  if a = "" then b else a

/-- TypeScript truthiness of a `boolean | undefined` value. -/
def optTruthy : Option Bool → Bool
  | some b => b
  | none => false

/-- TypeScript truthiness of a `string | undefined` value. -/
def optStrTruthy : Option String → Bool
  | some s => !(s = "")
  | none => false

/-- TypeScript `String.prototype.replace(pat, rep)` with a string pattern:
replaces only the first occurrence. -/
def replaceFirst (s pat rep : String) : String :=
  match s.splitOn pat with
  | [] => s
  | [x] => x
  | x :: xs => x ++ rep ++ String.intercalate pat xs

/-- Modelled from the spec: `isTag` lives in `util.ts`, which is not under
`src/`.  Per the spec, it recognises whether the triggering ref is a tag ref. -/
def isTag (ref : String) : Bool :=
  ref.startsWith "refs/tags/"

/-- Modelled from the spec: `releaseBody` lives in `util.ts`, which is not
under `src/`.  The spec says the reconciler treats it as an opaque string
producer, so its output is modelled as the `workflow_body` configuration
field. -/
def releaseBody (config : Config) : Option String :=
  config.workflow_body

/-- `const [owner, ...] = config.github_repository.split("/")`. -/
def repoOwner (config : Config) : String :=
  (config.github_repository.splitOn "/").getD 0 ""

/-- `const [..., repo] = config.github_repository.split("/")`. -/
def repoName (config : Config) : String :=
  (config.github_repository.splitOn "/").getD 1 ""

/-- The error shape the code inspects on a rejected client call: only its
`status` field is ever read (`undefined` when absent). -/
structure ApiErr where
  status : Option Nat
deriving DecidableEq

/-- Parameters of `Releaser.createRelease`. -/
structure CreateParams where
  owner : String
  repo : String
  tag_name : String
  name : String
  body : Option String
  draft : Option Bool
  prerelease : Option Bool
  target_commitish : Option String
  discussion_category_name : Option String
  generate_release_notes : Option Bool
deriving DecidableEq

/-- Parameters of `Releaser.updateRelease`. -/
structure UpdateParams where
  owner : String
  repo : String
  release_id : Nat
  tag_name : String
  target_commitish : String
  name : String
  body : Option String
  draft : Option Bool
  prerelease : Option Bool
  discussion_category_name : Option String
  generate_release_notes : Option Bool
deriving DecidableEq

/-- The request `upload` sends to the asset-upload endpoint: the `name` query
parameter, the headers, and the raw file bytes. -/
structure UploadRequest where
  url : String
  name : String
  contentLength : Nat
  contentType : String
  authorization : String
  body : List Nat
deriving DecidableEq

/-- A service call issued by `release` or `upload`, recorded in order. -/
inductive Event where
  | listReleasesPage (page : List Release)
  | getReleaseByTag (owner repo tag : String)
  | createRelease (p : CreateParams)
  | updateRelease (p : UpdateParams)
  | deleteRef (owner repo ref : String)
  | createRef (owner repo ref sha : String)
  | sleep (ms : Nat)
  | deleteReleaseAsset (owner repo : String) (asset_id : Nat)
  | uploadRequest (req : UploadRequest)
deriving DecidableEq

/-- Errors with which the embedded `release` can fail. -/
inductive ReleaseErr where
  | retryExhausted (msg : String)
  | clientErr (status : Option Nat)
deriving DecidableEq

/-- The message of the `new Error("Too many retries.")` thrown on exhaustion. -/
def retryExhaustedMsg : String := "Too many retries."

/-- The `Releaser` interface as a pure response oracle: each method maps its
request to the response the remote service would produce.  `allReleases`
yields its paginated result as a list of pages. -/
structure Releaser where
  getReleaseByTag : String → String → String → Except ApiErr Release
  createRelease : CreateParams → Except ApiErr Release
  updateRelease : UpdateParams → Except ApiErr Release
  allReleases : String → String → List (List Release)
  createRef : String → String → String → String → Except ApiErr Unit
  deleteRef : String → String → String → Except ApiErr Unit

/-- The resolved target tag (lines 226–230):
`config.input_tag_name || (isTag(ref) ? ref.replace("refs/tags/", "") : "")`. -/
def resolveTag (config : Config) : String :=
  tsOrStr config.input_tag_name
    (if isTag config.github_ref
     then replaceFirst config.github_ref "refs/tags/" ""
     else "")

/-- The fields passed to `createRelease` on the creation path (lines 269–295). -/
def createParams (config : Config) : CreateParams :=
  { owner := repoOwner config
    repo := repoName config
    tag_name := resolveTag config
    name := tsOrStr config.input_name (resolveTag config)
    body := releaseBody config
    draft := config.input_draft
    prerelease := config.input_prerelease
    target_commitish := config.input_target_commitish
    discussion_category_name := config.input_discussion_category_name
    generate_release_notes := config.input_generate_release_notes }

/-- The merged body on the update path (lines 344–351). -/
def mergedBody (config : Config) (existing : Release) : String :=
  let workflowBody := tsOrStr (releaseBody config) ""
  let existingReleaseBody := tsOrStr existing.body ""
  if optTruthy config.input_append_body ∧ workflowBody ≠ "" ∧ existingReleaseBody ≠ ""
  then existingReleaseBody ++ "\n" ++ workflowBody
  else strOr workflowBody existingReleaseBody

/-- The merged `target_commitish` on the update path (lines 311–322). -/
def mergedCommitish (config : Config) (existing : Release) : String :=
  match config.input_target_commitish with
  | some s => if s ≠ "" ∧ s ≠ existing.target_commitish then s else existing.target_commitish
  | none => existing.target_commitish

/-- The fields passed to `updateRelease` on the update path (lines 308–360
and 384–396).  The shadowed recomputation at lines 323–337 of the source has
no observable effect and is omitted. -/
def updateParams (config : Config) (tag : String) (existing : Release) : UpdateParams :=
  { owner := repoOwner config
    repo := repoName config
    release_id := existing.id
    tag_name := tag
    target_commitish := mergedCommitish config existing
    name := tsOrStr config.input_name (tsOrStr existing.name tag)
    body := some (mergedBody config existing)
    draft := some (config.input_draft.getD existing.draft)
    prerelease := some (config.input_prerelease.getD existing.prerelease)
    discussion_category_name := config.input_discussion_category_name
    generate_release_notes := config.input_generate_release_notes }

/-- The paginated draft-release scan (lines 238–246): fetch pages in order and
return the first release on any page whose `tag_name` equals the tag, together
with the page-fetch events issued. -/
def scanPages (pages : List (List Release)) (tag : String) : List Event × Option Release :=
  match pages with
  | [] => ([], none)
  | page :: rest =>
    match page.find? (fun rel => rel.tag_name == tag) with
    | some rel => ([Event.listReleasesPage page], some rel)
    | none =>
      let r := scanPages rest tag
      (Event.listReleasesPage page :: r.1, r.2)

/-- The release the draft scan would return, if any. -/
def findRelease (pages : List (List Release)) (tag : String) : Option Release :=
  (scanPages pages tag).2

/-- The draft-release lookup (lines 235–247): scans all releases only when the
configuration requests a draft release. -/
def draftScan (config : Config) (releaser : Releaser) : List Event × Option Release :=
  if optTruthy config.input_draft
  then scanPages (releaser.allReleases (repoOwner config) (repoName config)) (resolveTag config)
  else ([], none)

/-- The final `updateRelease` call of the update path (lines 384–397). -/
def updateCall (releaser : Releaser) (evs : List Event) (p : UpdateParams) :
    List Event × Except ReleaseErr Release :=
  match releaser.updateRelease p with
  | .ok rel => (evs ++ [Event.updateRelease p], .ok rel)
  | .error e => (evs ++ [Event.updateRelease p], .error (.clientErr e.status))

/-- The update path of `release` (lines 308–397): optional tag-ref rewrite
(delete ref, create ref, 2000 ms settle delay), then the update call. -/
def updatePath (config : Config) (releaser : Releaser) (evs : List Event)
    (existing : Release) : List Event × Except ReleaseErr Release :=
  let owner := repoOwner config
  let repo := repoName config
  let p := updateParams config (resolveTag config) existing
  if optTruthy config.input_update_tag then
    let dref := "tags/" ++ existing.tag_name
    let cref := "refs/tags/" ++ existing.tag_name
    match releaser.deleteRef owner repo dref with
    | .error e => (evs ++ [Event.deleteRef owner repo dref], .error (.clientErr e.status))
    | .ok _ =>
      match releaser.createRef owner repo cref config.github_sha with
      | .error e =>
          (evs ++ [Event.deleteRef owner repo dref,
                   Event.createRef owner repo cref config.github_sha],
           .error (.clientErr e.status))
      | .ok _ =>
          updateCall releaser
            (evs ++ [Event.deleteRef owner repo dref,
                     Event.createRef owner repo cref config.github_sha,
                     Event.sleep 2000]) p
  else updateCall releaser evs p

/-- The embedding of `release` (lines 215–399).  Returns the ordered list of
service calls issued and the result.  `maxRetries <= 0` aborts with the
"Too many retries." error; a draft configuration first scans the release list;
then a lookup by tag decides between the creation path (404) and the update
path; any creation failure recurses with `maxRetries - 1`. -/
def release (config : Config) (releaser : Releaser) :
    Nat → List Event × Except ReleaseErr Release
  | 0 => ([], .error (.retryExhausted retryExhaustedMsg))
  | n + 1 =>
    let owner := repoOwner config
    let repo := repoName config
    let tag := resolveTag config
    let scan := draftScan config releaser
    match scan.2 with
    | some rel => (scan.1, .ok rel)
    | none =>
      let evs := scan.1 ++ [Event.getReleaseByTag owner repo tag]
      match releaser.getReleaseByTag owner repo tag with
      | .ok existingRelease => updatePath config releaser evs existingRelease
      | .error e =>
        if e.status = some 404 then
          let p := createParams config
          let evs := evs ++ [Event.createRelease p]
          match releaser.createRelease p with
          | .ok rel => (evs, .ok rel)
          | .error _ =>
            let rest := release config releaser n
            (evs ++ rest.1, rest.2)
        else
          (evs, .error (.clientErr e.status))

/-- The asset descriptor produced by `asset(path)` (lines 152–159).  The
file-system read itself is outside the core; `upload` is embedded as taking
the descriptor it destructures. -/
structure ReleaseAsset where
  name : String
  mime : String
  size : Nat
  data : List Nat
deriving DecidableEq

/-- The decoded JSON body of the upload response: the code reads its `message`
field and `JSON.stringify`s its `errors` field. -/
structure RespJson where
  message : String
  errorsJson : String
deriving DecidableEq

/-- The client operations `upload` uses, as pure response oracles:
`github.rest.repos.deleteReleaseAsset` and the raw `fetch` POST to the upload
endpoint (returning the response status and decoded JSON body). -/
structure UploadClient where
  deleteReleaseAsset : String → String → Nat → Except ApiErr Unit
  fetchUpload : UploadRequest → Nat × RespJson

/-- Result of the embedded `upload`: `skipped` is the `return null` of the
overwrite-disabled branch; `uploaded` carries the decoded response body. -/
inductive UploadResult where
  | skipped
  | uploaded (json : RespJson)
deriving DecidableEq

/-- Errors of the embedded `upload`: a rejected asset deletion propagates; a
non-201 upload response throws the constructed error message. -/
inductive UploadErr where
  | deleteFailed (status : Option Nat)
  | uploadFailed (msg : String)
deriving DecidableEq

/-- The error message of lines 206–210. -/
def uploadFailMsg (name : String) (status : Nat) (json : RespJson) : String :=
  "Failed to upload release asset " ++ name ++ ". received status code " ++ toString status
    ++ "\n" ++ json.message ++ "\n" ++ json.errorsJson

/-- The request of lines 193–203: the endpoint with the `name` query
parameter, the `content-length`, `content-type` and `authorization` headers,
and the raw file bytes as body. -/
def uploadReq (config : Config) (url : String) (a : ReleaseAsset) : UploadRequest :=
  { url := url
    name := a.name
    contentLength := a.size
    contentType := a.mime
    authorization := "token " ++ config.github_token
    body := a.data }

/-- Issuing the upload request and handling its response (lines 192–212). -/
def doUploadRequest (config : Config) (client : UploadClient) (url : String)
    (a : ReleaseAsset) (evs : List Event) : List Event × Except UploadErr UploadResult :=
  let req := uploadReq config url a
  let evs := evs ++ [Event.uploadRequest req]
  let resp := client.fetchUpload req
  if resp.1 ≠ 201
  then (evs, .error (.uploadFailed (uploadFailMsg a.name resp.1 resp.2)))
  else (evs, .ok (.uploaded resp.2))

/-- The embedding of `upload` (lines 165–213).  A same-named existing asset is
skipped when `input_overwrite_files === false`, otherwise deleted first — with
`currentAsset.id || 1` as the asset id — before the upload request is issued. -/
def upload (config : Config) (client : UploadClient) (url : String)
    (a : ReleaseAsset) (currentAssets : List AssetRef) :
    List Event × Except UploadErr UploadResult :=
  let owner := repoOwner config
  let repo := repoName config
  match currentAssets.find? (fun c => c.name == a.name) with
  | some currentAsset =>
    if config.input_overwrite_files = some false then
      ([], .ok .skipped)
    else
      let aid := if currentAsset.id = 0 then 1 else currentAsset.id
      match client.deleteReleaseAsset owner repo aid with
      | .error e => ([Event.deleteReleaseAsset owner repo aid], .error (.deleteFailed e.status))
      | .ok _ => doUploadRequest config client url a [Event.deleteReleaseAsset owner repo aid]
  | none => doUploadRequest config client url a []

/-! ### Helper lemmas about the embedded `release` -/

/-- Whether an event is a `createRelease` call. -/
def Event.isCreate : Event → Bool
  | .createRelease _ => true
  | _ => false

/-- Number of creation attempts recorded in a trace. -/
def countCreates (evs : List Event) : Nat :=
  (evs.filter Event.isCreate).length

theorem countCreates_append (a b : List Event) :
    countCreates (a ++ b) = countCreates a + countCreates b := by
  simp [countCreates, List.filter_append]

theorem scanPages_no_create (pages : List (List Release)) (tag : String) :
    countCreates (scanPages pages tag).1 = 0 := by
  induction pages with
  | nil => simp [scanPages, countCreates]
  | cons page rest ih =>
    simp only [scanPages]
    cases page.find? (fun rel => rel.tag_name == tag) with
    | some rel => simp [countCreates, Event.isCreate]
    | none => simpa [countCreates, Event.isCreate] using ih

theorem draftScan_no_create (config : Config) (releaser : Releaser) :
    countCreates (draftScan config releaser).1 = 0 := by
  unfold draftScan
  split
  · exact scanPages_no_create _ _
  · simp [countCreates]

theorem draftScan_snd_none (config : Config) (releaser : Releaser)
    (h : findRelease (releaser.allReleases (repoOwner config) (repoName config))
          (resolveTag config) = none) :
    (draftScan config releaser).2 = none := by
  unfold draftScan
  split
  · exact h
  · rfl

/-- Unfolding: the draft scan short-circuits the run when it finds a release. -/
theorem release_succ_scan_found (config : Config) (releaser : Releaser) (n : Nat)
    (rel : Release) (h : (draftScan config releaser).2 = some rel) :
    release config releaser (n + 1) = ((draftScan config releaser).1, .ok rel) := by
  simp only [release, h]

/-- Unfolding: a successful lookup enters the update path. -/
theorem release_succ_lookup_ok (config : Config) (releaser : Releaser) (n : Nat)
    (existing : Release)
    (hscan : (draftScan config releaser).2 = none)
    (hlookup : releaser.getReleaseByTag (repoOwner config) (repoName config)
        (resolveTag config) = .ok existing) :
    release config releaser (n + 1) =
      updatePath config releaser
        ((draftScan config releaser).1 ++
          [Event.getReleaseByTag (repoOwner config) (repoName config) (resolveTag config)])
        existing := by
  simp only [release, hscan, hlookup]

/-- Unfolding: a 404 lookup followed by a successful creation. -/
theorem release_succ_create_ok (config : Config) (releaser : Releaser) (n : Nat)
    (rel : Release)
    (hscan : (draftScan config releaser).2 = none)
    (hlookup : releaser.getReleaseByTag (repoOwner config) (repoName config)
        (resolveTag config) = .error ⟨some 404⟩)
    (hcreate : releaser.createRelease (createParams config) = .ok rel) :
    release config releaser (n + 1) =
      ((draftScan config releaser).1 ++
        [Event.getReleaseByTag (repoOwner config) (repoName config) (resolveTag config),
         Event.createRelease (createParams config)],
       .ok rel) := by
  simp [release, hscan, hlookup, hcreate]

/-- Unfolding: a 404 lookup followed by a failed creation recurses with the
retry budget decremented by one. -/
theorem release_succ_create_fail (config : Config) (releaser : Releaser) (n : Nat)
    (e : ApiErr)
    (hscan : (draftScan config releaser).2 = none)
    (hlookup : releaser.getReleaseByTag (repoOwner config) (repoName config)
        (resolveTag config) = .error ⟨some 404⟩)
    (hcreate : releaser.createRelease (createParams config) = .error e) :
    release config releaser (n + 1) =
      ((draftScan config releaser).1 ++
        [Event.getReleaseByTag (repoOwner config) (repoName config) (resolveTag config),
         Event.createRelease (createParams config)] ++
        (release config releaser n).1,
       (release config releaser n).2) := by
  simp [release, hscan, hlookup, hcreate]

/-- Unfolding: a lookup failure whose status is not 404 propagates at once. -/
theorem release_succ_non404 (config : Config) (releaser : Releaser) (n : Nat)
    (e : ApiErr) (hne : e.status ≠ some 404)
    (hscan : (draftScan config releaser).2 = none)
    (hlookup : releaser.getReleaseByTag (repoOwner config) (repoName config)
        (resolveTag config) = .error e) :
    release config releaser (n + 1) =
      ((draftScan config releaser).1 ++
        [Event.getReleaseByTag (repoOwner config) (repoName config) (resolveTag config)],
       .error (.clientErr e.status)) := by
  simp [release, hscan, hlookup, hne]

theorem find?_append_rel (l₁ l₂ : List Release) (p : Release → Bool) :
    (l₁ ++ l₂).find? p =
      match l₁.find? p with
      | some r => some r
      | none => l₂.find? p := by
  induction l₁ with
  | nil => simp
  | cons a t ih =>
    by_cases h : p a
    · simp [List.find?_cons, h]
    · simp [List.find?_cons, h, ih]

/-- The draft scan returns the first tag match in page order. -/
theorem findRelease_eq_find_flatten (pages : List (List Release)) (tag : String) :
    findRelease pages tag = pages.flatten.find? (fun rel => rel.tag_name == tag) := by
  induction pages with
  | nil => rfl
  | cons page rest ih =>
    rw [show ((page :: rest).flatten) = page ++ rest.flatten from rfl, find?_append_rel]
    cases h : page.find? (fun rel => rel.tag_name == tag) with
    | some rel => simp [findRelease, scanPages, h]
    | none => simpa [findRelease, scanPages, h] using ih

/-- Exhaustion lemma: when the scan misses, every lookup is a 404 and every
creation attempt fails, the run at any retry budget `N` fails with the
"Too many retries." error after exactly `N` creation attempts. -/
theorem release_all_fail (config : Config) (releaser : Releaser)
    (hscan : findRelease (releaser.allReleases (repoOwner config) (repoName config))
        (resolveTag config) = none)
    (hlookup : ∀ o rp t, releaser.getReleaseByTag o rp t = .error ⟨some 404⟩)
    (hcreate : ∀ p, ∃ e, releaser.createRelease p = .error e) :
    ∀ N, (release config releaser N).2 = .error (.retryExhausted retryExhaustedMsg) ∧
      countCreates (release config releaser N).1 = N := by
  intro N
  induction N with
  | zero => exact ⟨rfl, rfl⟩
  | succ n ih =>
    obtain ⟨e, he⟩ := hcreate (createParams config)
    rw [release_succ_create_fail config releaser n e
      (draftScan_snd_none config releaser hscan) (hlookup _ _ _) he]
    refine ⟨ih.1, ?_⟩
    have h0 := draftScan_no_create config releaser
    have h2 := ih.2
    simp only [countCreates] at h0 h2
    simp [countCreates_append, countCreates, Event.isCreate, h0, h2]

/-! ### Concrete fixtures used by the witnesses -/

/-- A concrete configuration with an explicit tag and all optional inputs
unset. -/
def cfgBase : Config :=
  { github_token := "t0"
    github_ref := "refs/heads/main"
    github_sha := "sha0"
    github_repository := "octo/widgets"
    input_name := none
    input_tag_name := some "v1"
    workflow_body := none
    input_draft := none
    input_prerelease := none
    input_target_commitish := none
    input_discussion_category_name := none
    input_generate_release_notes := none
    input_append_body := none
    input_update_tag := none
    input_overwrite_files := none }

/-- An oracle whose lookups always 404 and whose creations always fail. -/
def relFail : Releaser :=
  { getReleaseByTag := fun _ _ _ => .error ⟨some 404⟩
    createRelease := fun _ => .error ⟨some 422⟩
    updateRelease := fun _ => .error ⟨none⟩
    allReleases := fun _ _ => []
    createRef := fun _ _ _ _ => .ok ()
    deleteRef := fun _ _ _ => .ok () }

/-- A concrete existing release with tag `v1`. -/
def relA : Release :=
  { id := 7
    upload_url := "uu"
    html_url := "hu"
    tag_name := "v1"
    name := some "R"
    body := some "old"
    target_commitish := "abc"
    draft := true
    prerelease := false
    assets := [] }

/-- A configuration requesting a draft release. -/
def cfgDraft : Config :=
  { cfgBase with input_draft := some true }

/-- An oracle whose release list holds one page containing `relA`. -/
def relDraft : Releaser :=
  { relFail with allReleases := fun _ _ => [[relA]] }

/-! ### The claims -/

/-- C1: for every configuration and client, if every creation attempt fails
and every preceding lookup reports not-found (the draft scan finds no match
and every lookup by tag fails with status 404), `release` called with
`maxRetries = N > 0` issues exactly `N` creation attempts and then fails with
the "Too many retries." error raised when the retry count reaches zero. -/
theorem release_retry_exhaustion (config : Config) (releaser : Releaser) (N : Nat)
    (hN : 0 < N)
    (hscan : findRelease (releaser.allReleases (repoOwner config) (repoName config))
        (resolveTag config) = none)
    (hlookup : ∀ o rp t, releaser.getReleaseByTag o rp t = .error ⟨some 404⟩)
    (hcreate : ∀ p, ∃ e, releaser.createRelease p = .error e) :
    (release config releaser N).2 = .error (.retryExhausted retryExhaustedMsg) ∧
    countCreates (release config releaser N).1 = N :=
  release_all_fail config releaser hscan hlookup hcreate N

/-- Witness for C1 at `N = 2` with an always-failing creation oracle. -/
theorem release_retry_exhaustion_witness :
    (release cfgBase relFail 2).2 = .error (.retryExhausted retryExhaustedMsg) ∧
    countCreates (release cfgBase relFail 2).1 = 2 :=
  release_retry_exhaustion cfgBase relFail 2 (by decide) rfl (fun _ _ _ => rfl)
    (fun _ => ⟨⟨some 422⟩, rfl⟩)

/-- C2: any error from `createRelease` on the creation path with
`maxRetries > 1` is not propagated: the run equals one failed attempt followed
by the run with `maxRetries - 1`, whatever the creation error was. -/
theorem release_create_failure_recurses (config : Config) (releaser : Releaser)
    (m : Nat) (e : ApiErr) (hm : 1 < m)
    (hscan : findRelease (releaser.allReleases (repoOwner config) (repoName config))
        (resolveTag config) = none)
    (hlookup : releaser.getReleaseByTag (repoOwner config) (repoName config)
        (resolveTag config) = .error ⟨some 404⟩)
    (hcreate : releaser.createRelease (createParams config) = .error e) :
    release config releaser m =
      ((draftScan config releaser).1 ++
        [Event.getReleaseByTag (repoOwner config) (repoName config) (resolveTag config),
         Event.createRelease (createParams config)] ++
        (release config releaser (m - 1)).1,
       (release config releaser (m - 1)).2) := by
  obtain ⟨n, rfl⟩ : ∃ n, m = n + 1 := ⟨m - 1, by omega⟩
  simpa using release_succ_create_fail config releaser n e
    (draftScan_snd_none config releaser hscan) hlookup hcreate

/-- Witness for C2 at `maxRetries = 2` with a creation error of status 422. -/
theorem release_create_failure_recurses_witness :
    release cfgBase relFail 2 =
      ((draftScan cfgBase relFail).1 ++
        [Event.getReleaseByTag (repoOwner cfgBase) (repoName cfgBase) (resolveTag cfgBase),
         Event.createRelease (createParams cfgBase)] ++
        (release cfgBase relFail 1).1,
       (release cfgBase relFail 1).2) :=
  release_create_failure_recurses cfgBase relFail 2 ⟨some 422⟩ (by decide) rfl rfl rfl

/-- C3: on the update path the body sent to `updateRelease` is
existing body + newline + workflow body when the append flag is set and both
are non-empty, and otherwise the workflow body when non-empty, else the
existing body. -/
theorem update_body_merge (config : Config) (tag : String) (existing : Release) :
    (updateParams config tag existing).body =
      some (if optTruthy config.input_append_body ∧ tsOrStr (releaseBody config) "" ≠ "" ∧
               tsOrStr existing.body "" ≠ ""
            then tsOrStr existing.body "" ++ "\n" ++ tsOrStr (releaseBody config) ""
            else if tsOrStr (releaseBody config) "" ≠ ""
                 then tsOrStr (releaseBody config) ""
                 else tsOrStr existing.body "") := by
  by_cases h : optTruthy config.input_append_body ∧ tsOrStr (releaseBody config) "" ≠ "" ∧
      tsOrStr existing.body "" ≠ ""
  · simp [updateParams, mergedBody, h]
  · by_cases hw : tsOrStr (releaseBody config) "" = ""
    · simp [updateParams, mergedBody, strOr, h, hw]
    · simp [updateParams, mergedBody, strOr, h, hw]

/-- C4: the update path sends the configured draft/prerelease value exactly
when it is defined and the existing release's flag when it is undefined. -/
theorem update_tristate_flags (config : Config) (tag : String) (existing : Release) :
    (updateParams config tag existing).draft =
      some (match config.input_draft with
            | some b => b
            | none => existing.draft) ∧
    (updateParams config tag existing).prerelease =
      some (match config.input_prerelease with
            | some b => b
            | none => existing.prerelease) := by
  constructor
  · cases h : config.input_draft <;> simp [updateParams, h]
  · cases h : config.input_prerelease <;> simp [updateParams, h]

/-- C5: with the draft flag set, the run iterates the paginated release list
and returns the first release whose tag matches the resolved tag,
short-circuiting the rest of the algorithm; when no page matches, it falls
through to the lookup and, on a 404, to the creation path. -/
theorem draft_scan_behaviour (config : Config) (releaser : Releaser) (n : Nat)
    (hdraft : optTruthy config.input_draft = true) :
    (findRelease (releaser.allReleases (repoOwner config) (repoName config))
        (resolveTag config) =
      ((releaser.allReleases (repoOwner config) (repoName config)).flatten.find?
        (fun rel => rel.tag_name == resolveTag config))) ∧
    (∀ rel,
      findRelease (releaser.allReleases (repoOwner config) (repoName config))
          (resolveTag config) = some rel →
      release config releaser (n + 1) =
        ((scanPages (releaser.allReleases (repoOwner config) (repoName config))
            (resolveTag config)).1,
         .ok rel)) ∧
    (findRelease (releaser.allReleases (repoOwner config) (repoName config))
        (resolveTag config) = none →
      releaser.getReleaseByTag (repoOwner config) (repoName config) (resolveTag config) =
        .error ⟨some 404⟩ →
      Event.createRelease (createParams config) ∈ (release config releaser (n + 1)).1) := by
  refine ⟨findRelease_eq_find_flatten _ _, ?_, ?_⟩
  · intro rel h
    have hd : (draftScan config releaser).2 = some rel := by
      simp only [draftScan, hdraft, if_true]
      exact h
    rw [release_succ_scan_found config releaser n rel hd]
    simp [draftScan, hdraft]
  · intro hnone hlookup
    have hd : (draftScan config releaser).2 = none :=
      draftScan_snd_none config releaser hnone
    cases hc : releaser.createRelease (createParams config) with
    | ok rel =>
      rw [release_succ_create_ok config releaser n rel hd hlookup hc]
      simp
    | error e =>
      rw [release_succ_create_fail config releaser n e hd hlookup hc]
      simp

/-- Witness for C5: a one-page list containing a matching draft release is
returned directly, short-circuiting the run. -/
theorem draft_scan_behaviour_witness :
    release cfgDraft relDraft 1 =
      ((scanPages [[relA]] (resolveTag cfgDraft)).1, .ok relA) :=
  (draft_scan_behaviour cfgDraft relDraft 0 rfl).2.1 relA (by decide)

/-- Under a permanently-404 lookup the run can never surface a client error:
every level either returns a created release or recurses, ending at
exhaustion. -/
theorem release_no_client_err (config : Config) (releaser : Releaser)
    (hscan : (draftScan config releaser).2 = none)
    (hlookup : releaser.getReleaseByTag (repoOwner config) (repoName config)
        (resolveTag config) = .error ⟨some 404⟩) :
    ∀ m s, (release config releaser m).2 ≠ .error (.clientErr s) := by
  intro m
  induction m with
  | zero =>
    intro s h
    simp [release] at h
  | succ n ih =>
    intro s
    cases hc : releaser.createRelease (createParams config) with
    | ok rel =>
      rw [release_succ_create_ok config releaser n rel hscan hlookup hc]
      simp
    | error e =>
      rw [release_succ_create_fail config releaser n e hscan hlookup hc]
      exact ih s

/-- C6: on the non-draft lookup, an error with status 404 is recovered
locally — the run proceeds to the creation path and never surfaces a client
error — while an error with any other status is propagated immediately, with
no retry and no further calls. -/
theorem lookup_error_handling (config : Config) (releaser : Releaser) (n : Nat)
    (e : ApiErr)
    (hscan : (draftScan config releaser).2 = none)
    (hlookup : releaser.getReleaseByTag (repoOwner config) (repoName config)
        (resolveTag config) = .error e) :
    (e.status = some 404 →
      Event.createRelease (createParams config) ∈ (release config releaser (n + 1)).1 ∧
      ∀ s, (release config releaser (n + 1)).2 ≠ .error (.clientErr s)) ∧
    (e.status ≠ some 404 →
      release config releaser (n + 1) =
        ((draftScan config releaser).1 ++
          [Event.getReleaseByTag (repoOwner config) (repoName config) (resolveTag config)],
         .error (.clientErr e.status))) := by
  constructor
  · intro h404
    have he : e = ⟨some 404⟩ := by cases e; simpa using h404
    subst he
    refine ⟨?_, release_no_client_err config releaser hscan hlookup (n + 1)⟩
    cases hc : releaser.createRelease (createParams config) with
    | ok rel =>
      rw [release_succ_create_ok config releaser n rel hscan hlookup hc]
      simp
    | error e' =>
      rw [release_succ_create_fail config releaser n e' hscan hlookup hc]
      simp
  · intro hne
    exact release_succ_non404 config releaser n e hne hscan hlookup

/-- An oracle whose lookups fail with a non-404 status. -/
def relBoom : Releaser :=
  { relFail with getReleaseByTag := fun _ _ _ => .error ⟨some 500⟩ }

/-- Witness for C6: a 500 lookup error is propagated immediately. -/
theorem lookup_error_handling_witness :
    release cfgBase relBoom 1 =
      ((draftScan cfgBase relBoom).1 ++
        [Event.getReleaseByTag (repoOwner cfgBase) (repoName cfgBase) (resolveTag cfgBase)],
       .error (.clientErr (some 500))) :=
  (lookup_error_handling cfgBase relBoom 0 ⟨some 500⟩ rfl rfl).2 (by decide)

/-- C7: on the update path, setting the update-tag flag issues exactly
delete-ref on the existing tag, create-ref pointing it at the triggering
commit, a 2000 ms delay, and only then the update call; leaving it unset
issues none of these before the update call. -/
theorem update_tag_ordering (config : Config) (releaser : Releaser) (n : Nat)
    (existing : Release)
    (hscan : (draftScan config releaser).2 = none)
    (hlookup : releaser.getReleaseByTag (repoOwner config) (repoName config)
        (resolveTag config) = .ok existing) :
    (optTruthy config.input_update_tag = true →
      releaser.deleteRef (repoOwner config) (repoName config)
          ("tags/" ++ existing.tag_name) = .ok () →
      releaser.createRef (repoOwner config) (repoName config)
          ("refs/tags/" ++ existing.tag_name) config.github_sha = .ok () →
      (release config releaser (n + 1)).1 =
        (draftScan config releaser).1 ++
          [Event.getReleaseByTag (repoOwner config) (repoName config) (resolveTag config),
           Event.deleteRef (repoOwner config) (repoName config)
             ("tags/" ++ existing.tag_name),
           Event.createRef (repoOwner config) (repoName config)
             ("refs/tags/" ++ existing.tag_name) config.github_sha,
           Event.sleep 2000,
           Event.updateRelease (updateParams config (resolveTag config) existing)]) ∧
    (optTruthy config.input_update_tag = false →
      (release config releaser (n + 1)).1 =
        (draftScan config releaser).1 ++
          [Event.getReleaseByTag (repoOwner config) (repoName config) (resolveTag config),
           Event.updateRelease (updateParams config (resolveTag config) existing)]) := by
  rw [release_succ_lookup_ok config releaser n existing hscan hlookup]
  constructor
  · intro hu hd hc
    cases hur : releaser.updateRelease (updateParams config (resolveTag config) existing) <;>
      simp [updatePath, updateCall, hu, hd, hc, hur]
  · intro hu
    cases hur : releaser.updateRelease (updateParams config (resolveTag config) existing) <;>
      simp [updatePath, updateCall, hu, hur]

/-- A configuration with the update-tag flag set. -/
def cfgTag : Config :=
  { cfgBase with input_update_tag := some true }

/-- An oracle whose lookup finds `relA`. -/
def relFound : Releaser :=
  { relFail with getReleaseByTag := fun _ _ _ => .ok relA }

/-- Witness for C7: with the update-tag flag set, the trace is delete-ref,
create-ref, the 2000 ms delay, then the update call. -/
theorem update_tag_ordering_witness :
    (release cfgTag relFound 1).1 =
      (draftScan cfgTag relFound).1 ++
        [Event.getReleaseByTag (repoOwner cfgTag) (repoName cfgTag) (resolveTag cfgTag),
         Event.deleteRef (repoOwner cfgTag) (repoName cfgTag) ("tags/" ++ relA.tag_name),
         Event.createRef (repoOwner cfgTag) (repoName cfgTag)
           ("refs/tags/" ++ relA.tag_name) cfgTag.github_sha,
         Event.sleep 2000,
         Event.updateRelease (updateParams cfgTag (resolveTag cfgTag) relA)] :=
  (update_tag_ordering cfgTag relFound 0 relA rfl rfl).1 rfl rfl rfl

/-! ### Upload fixtures and claims -/

/-- A concrete asset descriptor. -/
def assetF : ReleaseAsset :=
  { name := "f.txt", mime := "text/plain", size := 3, data := [1, 2, 3] }

/-- A fixed successful response body. -/
def jsonOk : RespJson := { message := "ok", errorsJson := "null" }

/-- A fixed failure response body. -/
def json422 : RespJson := { message := "Validation Failed", errorsJson := "[]" }

/-- An upload client that accepts deletions and answers 201. -/
def upClient : UploadClient :=
  { deleteReleaseAsset := fun _ _ _ => .ok ()
    fetchUpload := fun _ => (201, jsonOk) }

/-- An upload client that answers 422. -/
def upClient422 : UploadClient :=
  { upClient with fetchUpload := fun _ => (422, json422) }

/-- A configuration with overwriting explicitly enabled. -/
def cfgOverwrite : Config :=
  { cfgBase with input_overwrite_files := some true }

theorem repoOwner_set_overwrite (config : Config) (b : Option Bool) :
    repoOwner { config with input_overwrite_files := b } = repoOwner config := rfl

theorem repoName_set_overwrite (config : Config) (b : Option Bool) :
    repoName { config with input_overwrite_files := b } = repoName config := rfl

theorem uploadReq_set_overwrite (config : Config) (b : Option Bool) (url : String)
    (a : ReleaseAsset) :
    uploadReq { config with input_overwrite_files := b } url a = uploadReq config url a := rfl

/-- C8 (amended): when a same-named asset exists, `overwrite_files = false`
skips with no service calls, and `overwrite_files = true` issues exactly one
delete — for the matching asset's id, except that a falsy id of 0 is replaced
by 1 — completed before exactly one upload request. -/
theorem upload_overwrite_behaviour (config : Config) (client : UploadClient)
    (url : String) (a : ReleaseAsset) (currentAssets : List AssetRef) (ca : AssetRef)
    (hfound : currentAssets.find? (fun c => c.name == a.name) = some ca) :
    (config.input_overwrite_files = some false →
      upload config client url a currentAssets = ([], .ok .skipped)) ∧
    (config.input_overwrite_files = some true →
      client.deleteReleaseAsset (repoOwner config) (repoName config)
          (if ca.id = 0 then 1 else ca.id) = .ok () →
      (upload config client url a currentAssets).1 =
        [Event.deleteReleaseAsset (repoOwner config) (repoName config)
           (if ca.id = 0 then 1 else ca.id),
         Event.uploadRequest (uploadReq config url a)]) := by
  constructor
  · intro hov
    simp [upload, hfound, hov]
  · intro hov hdel
    simp only [upload, hfound, hov]
    rw [if_neg (by simp)]
    rw [hdel]
    simp only [doUploadRequest]
    split <;> rfl

/-- Witness for C8 (amended) with a matching asset of id 5. -/
theorem upload_overwrite_behaviour_witness :
    (upload cfgOverwrite upClient "u" assetF [⟨5, "f.txt"⟩]).1 =
      [Event.deleteReleaseAsset (repoOwner cfgOverwrite) (repoName cfgOverwrite)
         (if (5 : Nat) = 0 then 1 else 5),
       Event.uploadRequest (uploadReq cfgOverwrite "u" assetF)] :=
  (upload_overwrite_behaviour cfgOverwrite upClient "u" assetF [⟨5, "f.txt"⟩]
    ⟨5, "f.txt"⟩ (by decide)).2 rfl rfl

/-- Counterexample to C8 as stated: for a matching asset whose id is 0 and
overwriting enabled, the delete request carries asset id 1, not the matching
asset's id 0. -/
theorem upload_overwrite_id_counterexample :
    (upload cfgOverwrite upClient "u" assetF [⟨0, "f.txt"⟩]).1 =
      [Event.deleteReleaseAsset (repoOwner cfgOverwrite) (repoName cfgOverwrite) 1,
       Event.uploadRequest (uploadReq cfgOverwrite "u" assetF)] ∧
    (1 : Nat) ≠ 0 := by
  constructor
  · rfl
  · decide

/-- C9: for every upload request, a response status other than 201 fails the
operation with the message built from the decoded body's `message` and
stringified `errors`, and a 201 response yields the decoded body. -/
theorem upload_response_handling (config : Config) (client : UploadClient)
    (url : String) (a : ReleaseAsset) (evs : List Event) (status : Nat)
    (json : RespJson)
    (hresp : client.fetchUpload (uploadReq config url a) = (status, json)) :
    (status ≠ 201 →
      doUploadRequest config client url a evs =
        (evs ++ [Event.uploadRequest (uploadReq config url a)],
         .error (.uploadFailed (uploadFailMsg a.name status json)))) ∧
    (status = 201 →
      doUploadRequest config client url a evs =
        (evs ++ [Event.uploadRequest (uploadReq config url a)],
         .ok (.uploaded json))) := by
  constructor <;> intro h <;> simp [doUploadRequest, hresp, h]

/-- Witness for C9: a 422 response fails with the constructed message. -/
theorem upload_response_handling_witness :
    doUploadRequest cfgBase upClient422 "u" assetF [] =
      ([Event.uploadRequest (uploadReq cfgBase "u" assetF)],
       .error (.uploadFailed (uploadFailMsg assetF.name 422 json422))) :=
  (upload_response_handling cfgBase upClient422 "u" assetF [] 422 json422 rfl).1
    (by decide)

/-- C10: when a same-named asset exists and `overwrite_files` is unset
(undefined), the strict `=== false` check does not fire: the run behaves
exactly as with overwriting enabled — it deletes the existing asset, then
re-uploads — and does not skip. -/
theorem upload_unset_overwrite (config : Config) (client : UploadClient)
    (url : String) (a : ReleaseAsset) (currentAssets : List AssetRef) (ca : AssetRef)
    (hfound : currentAssets.find? (fun c => c.name == a.name) = some ca)
    (hunset : config.input_overwrite_files = none)
    (hdel : client.deleteReleaseAsset (repoOwner config) (repoName config)
        (if ca.id = 0 then 1 else ca.id) = .ok ()) :
    upload config client url a currentAssets =
      upload { config with input_overwrite_files := some true } client url a
        currentAssets ∧
    (upload config client url a currentAssets).1 =
      [Event.deleteReleaseAsset (repoOwner config) (repoName config)
         (if ca.id = 0 then 1 else ca.id),
       Event.uploadRequest (uploadReq config url a)] ∧
    (upload config client url a currentAssets).2 ≠ .ok .skipped := by
  have hrun : upload config client url a currentAssets =
      ([Event.deleteReleaseAsset (repoOwner config) (repoName config)
          (if ca.id = 0 then 1 else ca.id),
        Event.uploadRequest (uploadReq config url a)],
       (doUploadRequest config client url a
          [Event.deleteReleaseAsset (repoOwner config) (repoName config)
            (if ca.id = 0 then 1 else ca.id)]).2) := by
    simp only [upload, hfound, hunset]
    rw [if_neg (by simp)]
    rw [hdel]
    simp only [doUploadRequest]
    split <;> rfl
  have hrun' : upload { config with input_overwrite_files := some true } client url a
      currentAssets =
      ([Event.deleteReleaseAsset (repoOwner config) (repoName config)
          (if ca.id = 0 then 1 else ca.id),
        Event.uploadRequest (uploadReq config url a)],
       (doUploadRequest config client url a
          [Event.deleteReleaseAsset (repoOwner config) (repoName config)
            (if ca.id = 0 then 1 else ca.id)]).2) := by
    simp only [upload, hfound, repoOwner_set_overwrite, repoName_set_overwrite]
    rw [if_neg (by simp)]
    rw [hdel]
    have hq := uploadReq_set_overwrite config (some true) url a
    simp only [doUploadRequest, hq]
    split <;> rfl
  refine ⟨hrun.trans hrun'.symm, ?_, ?_⟩
  · rw [hrun]
  · rw [hrun]
    simp only [doUploadRequest]
    split <;> simp

/-- Witness for C10: with `overwrite_files` unset and a matching asset, the
result is not the skip indicator. -/
theorem upload_unset_overwrite_witness :
    (upload cfgBase upClient "u" assetF [⟨5, "f.txt"⟩]).2 ≠ .ok .skipped :=
  (upload_unset_overwrite cfgBase upClient "u" assetF [⟨5, "f.txt"⟩] ⟨5, "f.txt"⟩
    (by decide) rfl rfl).2.2

end GhRelease
